import Mathlib

/-!
Verification development for `src/bot.py`, a Telegram media-downloader bot.
Text is modelled as `List Char` (Python `str`); machine-level details that
the claims do not touch (unicode character classes, float rounding in the
size computation) are noted at the definition they concern.
-/

set_option autoImplicit false

namespace SaveMedia

/-- Text is modelled as a list of characters (Python `str`, ASCII fragment). -/
abbrev Str := List Char

/-- Python regex class backslash-s, restricted to the ASCII whitespace
characters space, tab, newline, carriage return, vertical tab, form feed
(the inputs in this development are ASCII). -/
def isSpaceChar (c : Char) : Bool :=
  c = ' ' || c = '\t' || c = '\n' || c = '\r' || c = '\x0b' || c = '\x0c'

/-- Python regex class backslash-w restricted to ASCII: letters, digits,
underscore. -/
def isWordChar (c : Char) : Bool :=
  c.isAlpha || c.isDigit || c = '_'

/-- Match of the regex from `URL_RE` (bot.py line 28), anchored at the head of
`l`: a literal scheme, then at least one non-whitespace character, taken
greedily. Returns the matched text. -/
def urlAt (l : Str) : Option Str :=
  if (("https://").toList).isPrefixOf l then
    match l.drop 8 with
    | [] => none
    | c :: _ =>
      if isSpaceChar c then none
      else some ((("https://").toList) ++ (l.drop 8).takeWhile (fun d => !isSpaceChar d))
  else if (("http://").toList).isPrefixOf l then
    match l.drop 7 with
    | [] => none
    | c :: _ =>
      if isSpaceChar c then none
      else some ((("http://").toList) ++ (l.drop 7).takeWhile (fun d => !isSpaceChar d))
  else none

/-- Leftmost regex match: try `urlAt` at each successive start position,
as `URL_RE.search` does. -/
def findUrl : Str → Option Str
  | [] => none
  | c :: rest =>
    match urlAt (c :: rest) with
    | some u => some u
    | none => findUrl rest

/-- Embeds `extract_url` (bot.py lines 33-37): empty text is falsy and yields
`None`; otherwise the first regex match is returned. -/
def extract_url (text : Str) : Option Str :=
  if text.isEmpty then none else findUrl text

/-- Python substring containment `frag in l`. -/
def hasFrag (frag : Str) : Str → Bool
  | [] => frag.isEmpty
  | c :: rest => frag.isPrefixOf (c :: rest) || hasFrag frag rest

/-- Python `s.split(sep, maxsplit)` on a single-character separator: at most
`maxsplit` splits are performed, the remainder is kept whole. -/
def pySplit (sep : Char) : Nat → Str → List Str
  | 0, l => [l]
  | m + 1, l =>
    let before := l.takeWhile (fun c => c ≠ sep)
    match l.dropWhile (fun c => c ≠ sep) with
    | [] => [l]
    | _ :: after => before :: pySplit sep m after

/-- Scanner state for the hashtag regex: outside any candidate match, just
after a hash sign, or inside a tag with the word characters read so far in
reverse. -/
inductive ScanSt where
  | outside
  | afterHash
  | inTag (revWord : Str)

/-- Left-to-right non-overlapping scan for the regex hash-sign followed by one
or more word characters, as `re.findall` performs at bot.py line 119. -/
def findTagsAux : ScanSt → Str → List Str
  | .inTag rw, [] => ['#' :: rw.reverse]
  | .outside, [] => []
  | .afterHash, [] => []
  | .outside, c :: rest =>
    if c = '#' then findTagsAux .afterHash rest else findTagsAux .outside rest
  | .afterHash, c :: rest =>
    if isWordChar c then findTagsAux (.inTag [c]) rest
    else if c = '#' then findTagsAux .afterHash rest
    else findTagsAux .outside rest
  | .inTag rw, c :: rest =>
    if isWordChar c then findTagsAux (.inTag (c :: rw)) rest
    else ('#' :: rw.reverse) ::
      (if c = '#' then findTagsAux .afterHash rest else findTagsAux .outside rest)

/-- All hashtag matches of the text, in order (bot.py line 119). -/
def findTags (text : Str) : List Str :=
  findTagsAux .outside text

/-- Lowercasing of a tag, as Python `t.lower()` on ASCII text. -/
def lowerStr (s : Str) : Str :=
  s.map Char.toLower

/-- Embeds the dedup loop of `hashtags_from_text` (bot.py lines 120-125):
`seen` collects lowercased forms; a tag is kept, in order, the first time its
lowercased form appears. -/
def dedupTags (seen : List Str) : List Str → List Str
  | [] => []
  | t :: ts =>
    if lowerStr t ∈ seen then dedupTags seen ts
    else t :: dedupTags (lowerStr t :: seen) ts

/-- Embeds `hashtags_from_text` (bot.py lines 116-125). -/
def hashtags_from_text (text : Str) : List Str :=
  if text.isEmpty then [] else dedupTags [] (findTags text)

/-- Specification-side description of case-insensitive first-occurrence
deduplication, written from the claim's words rather than the code, to be
compared with the code's `dedupTags`: the first tag of each case-insensitive
class is kept — with exactly its first-seen casing, in the order the classes
first occur — and every later tag of the same class is dropped. -/
def specFirstSeen : List Str → List Str
  | [] => []
  | t :: ts => t :: specFirstSeen (ts.filter (fun u => lowerStr u ≠ lowerStr t))
termination_by l => l.length
decreasing_by
  simp only [List.length_cons]
  exact Nat.lt_succ_of_le (List.length_filter_le _ _)

/-- Python `s.strip()`: remove leading and trailing whitespace. -/
def pyStrip (s : Str) : Str :=
  ((s.dropWhile isSpaceChar).reverse.dropWhile isSpaceChar).reverse

/-- Embeds the snippet truncation of `handle_links` (bot.py lines 180-181):
text over 800 characters is cut to its first 800 characters plus an ellipsis
marker; shorter text passes through unchanged. -/
def truncSnippet (s : Str) : Str :=
  if 800 < s.length then s.take 800 ++ ("...").toList else s

/-- Final path component, the part after the last slash (pathlib `Path.name`
for the slashless file names produced in this program). -/
def pathName (p : Str) : Str :=
  (p.reverse.takeWhile (fun c => c ≠ '/')).reverse

/-- Embeds pathlib `Path.suffix`: the extension of the final component,
present when the last dot of the name is neither its first nor its last
character. -/
def pathSuffix (p : Str) : Str :=
  let name := pathName p
  let afterDot := name.reverse.takeWhile (fun c => c ≠ '.')
  if afterDot.length = name.length then []
  else
    let i := name.length - 1 - afterDot.length
    if 0 < i ∧ i < name.length - 1 then '.' :: afterDot.reverse else []

/-- Metadata dictionary returned by the extraction engine, restricted to the
keys this program reads (`title`, `description`, `thumbnail`, `duration`).
`none` models an absent key (Python dict `.get` returning `None`). -/
structure MediaInfo where
  title : Option Str
  description : Option Str
  thumbnail : Option Str
  duration : Option Nat
deriving DecidableEq

/-- Python truthy-chain `a or b or ...` over optional strings with a final
empty-string default: the first present, non-empty string wins. -/
def pyFirstTruthy : List (Option Str) → Str
  | [] => []
  | some s :: rest => if s.isEmpty then pyFirstTruthy rest else s
  | none :: rest => pyFirstTruthy rest

/-- Python f-string rendering of a value that may be `None` (as in
`f"*\x7btitle\x7d*"` when `info.get("title")` returned `None`). -/
def pyStrOfOpt : Option Str → Str
  | some s => s
  | none => ("None").toList

/-- Decimal rendering of a natural number, Python `str`/f-string on an int. -/
def natStr (n : Nat) : Str :=
  (Nat.repr n).toList

/-- Embeds `probe_info` (bot.py lines 61-69). The engine call
`ydl.extract_info(url, download=False)` is a black box whose outcome is the
argument: `.ok` is a returned metadata dict, `.error` is a raised exception
(carrying its text). The try/except returns `None` on any exception, so no
error ever propagates to the caller. -/
def probe_info (r : Except Str MediaInfo) : Option MediaInfo :=
  match r with
  | .ok i => some i
  | .error _ => none

/-- One stored ledger entry, the dict `\x7b"url": ..., "type": ...\x7d`
written at bot.py lines 190 and 218. -/
structure ReqEntry where
  url : Str
  type : Str
deriving DecidableEq

/-- The request ledger `requests_store` (bot.py line 31), a Python dict
modelled as an association list with at most one binding per key. -/
abbrev Store := List (Str × ReqEntry)

/-- Python dict lookup `store.get(k)` (bot.py line 246): first binding of the
key, no mutation. -/
def storeGet (s : Store) (k : Str) : Option ReqEntry :=
  match s with
  | [] => none
  | (k', v) :: rest => if k' = k then some v else storeGet rest k

/-- Python `del store[k]` guarded by `except KeyError: pass`
(bot.py lines 284-287): every binding of the key is removed. -/
def storeDel (s : Store) (k : Str) : Store :=
  s.filter (fun p => p.1 ≠ k)

/-- Python dict assignment `store[k] = v` (bot.py lines 190, 218). -/
def storeSet (s : Store) (k : Str) (v : ReqEntry) : Store :=
  if (storeGet s k).isSome then
    s.map (fun p => if p.1 = k then (k, v) else p)
  else s ++ [(k, v)]

/-- Text the callback is answered with (`bot.answer_callback_query`):
`invalid` is "Invalid request." (line 243), `expired` is
"Request expired. Send link again." (line 248), `starting` is
"Starting download..." (line 253). -/
inductive CbAnswer where
  | invalid
  | expired
  | starting
deriving DecidableEq

/-- The description carried by a download-failure report
`"Download failed: ..."` (bot.py line 273): either the exception text raised
by the download engine, or the stat exception raised at line 261 while
composing the too-large message for a path whose size cannot be read. -/
inductive DlFailure where
  | engine (e : Str)
  | statRaised (path : Str)
deriving DecidableEq

/-- Observable side effects of the handlers, in emission order. Each
constructor names one bot-API call site: `textSend` is `bot.send_message`,
`photoSend` is `bot.send_photo`, `audioSend`/`videoSend`/`documentSend` are
the media sends, `deleteMsg` is `bot.delete_message`, `answerCb` is
`bot.answer_callback_query`, `notifyDownloading` is the transient
"Downloading \<mode\>" message of line 255, `tooLargeSend` is the
"File too large (N MB)." message of line 261 carrying the computed megabyte
count, `failureSend` is the "Download failed: ..." message of line 273, and
`removeScratch` is `shutil.rmtree` of line 280. -/
inductive Effect where
  | textSend (t : Str)
  | photoSend (thumb : Str) (caption : Str)
  | audioSend (path : Str) (caption : Str)
  | videoSend (path : Str) (caption : Str)
  | documentSend (path : Str) (caption : Str)
  | deleteMsg (id : Nat)
  | answerCb (a : CbAnswer)
  | notifyDownloading (mode : Str)
  | tooLargeSend (mb : Nat)
  | failureSend (f : DlFailure)
  | removeScratch (dir : Str)
deriving DecidableEq

/-- A media send towards the user (the claim "any media-send operation"). -/
def isMediaSend : Effect → Bool
  | .photoSend _ _ => true
  | .audioSend _ _ => true
  | .videoSend _ _ => true
  | .documentSend _ _ => true
  | _ => false

/-- The document delivery method. -/
def isDocumentSend : Effect → Bool
  | .documentSend _ _ => true
  | _ => false

/-- The size-exceeded report. -/
def isTooLargeSend : Effect → Bool
  | .tooLargeSend _ => true
  | _ => false

/-- Embeds `file_too_big` (bot.py lines 127-132). `stat` is the filesystem
size oracle: `some size` is a successful `path.stat().st_size`, `none` models
`stat` raising (missing or unreadable file), which the except-clause turns
into `True`. The float comparison `size / (1024*1024) > maxMB` is modelled
exactly over the rationals as `size > maxMB * 1048576`; for the integer byte
counts involved the double rounding cannot cross the integer threshold, so
the two agree. -/
def file_too_big (maxMB : Nat) (stat : Str → Option Nat) (p : Str) : Bool :=
  match stat p with
  | some size => decide (maxMB * (1024 * 1024) < size)
  | none => true

/-- Audio file extensions recognized at bot.py line 267. -/
def audioExts : List Str :=
  [(".mp3").toList, (".m4a").toList, (".opus").toList, (".ogg").toList]

/-- Per-invocation environment of one `cb_download` run: the configured
megabyte ceiling, the filesystem size oracle, the outcome of the
`download_with_yt` call (`.ok` a resolved file path plus metadata, `.error` a
raised exception's text), the fresh scratch directory produced by
`tempfile.mkdtemp`, and the message id of the transient notify message. -/
structure CbConfig where
  maxMB : Nat
  stat : Str → Option Nat
  engine : Except Str (Str × MediaInfo)
  tmpdir : Str
  notifyId : Nat

/-- Shared mutable state visible to a `cb_download` invocation: the request
ledger, the set of existing scratch directories, and the set of live
transient messages. -/
structure CbState where
  store : Store
  dirs : List Str
  msgs : List Nat
deriving DecidableEq

/-- Embeds bot.py line 246 in isolation: the callback handler resolves the
identifier with `requests_store.get(uid)`, a read that does not mutate the
store. The returned pair is the lookup result together with the store as the
operation leaves it. -/
def cb_lookup (store : Store) (uid : Str) : Option ReqEntry × Store :=
  (storeGet store uid, store)

/-- Embeds the try-block of `cb_download` (bot.py lines 257-271): the sends
it performs, as a function of the engine outcome. A true `file_too_big`
leads to line 261, which re-reads `filepath.stat().st_size` to compose the
report; when that second stat raises, the exception escapes to the
except-clause of line 272 and a download-failure message is sent instead.
Otherwise the artifact is delivered by extension: audio-only mode or an
audio extension selects `send_audio`, everything else `send_video`. -/
def cb_try (cfg : CbConfig) (mode : Str) : List Effect :=
  let audio_only := mode = ("audio").toList
  match cfg.engine with
  | .error e => [.failureSend (.engine e)]
  | .ok (filepath, info) =>
    if file_too_big cfg.maxMB cfg.stat filepath then
      match cfg.stat filepath with
      | some size => [.tooLargeSend (size / (1024 * 1024))]
      | none => [.failureSend (.statRaised filepath)]
    else
      let caption := (info.title).getD (("File").toList)
      let ext := lowerStr (pathSuffix filepath)
      if audio_only || ext ∈ audioExts then [.audioSend filepath caption]
      else [.videoSend filepath caption]

/-- Embeds the finally-block of `cb_download` (bot.py lines 274-287): delete
the notify message, remove the scratch directory recursively, delete the
ledger entry. Removal from the abstract filesystem and message set always
succeeds; the surrounding try/except clauses only swallow exceptions, which
the abstract model does not raise. -/
def cb_finally (cfg : CbConfig) (uid : Str) (st : CbState) : CbState × List Effect :=
  (⟨storeDel st.store uid,
    st.dirs.filter (fun d => d ≠ cfg.tmpdir),
    st.msgs.filter (fun i => i ≠ cfg.notifyId)⟩,
   [.deleteMsg cfg.notifyId, .removeScratch cfg.tmpdir])

/-- Embeds `cb_download` (bot.py lines 237-287). The payload is split on the
pipe character with maxsplit 2; anything that does not unpack into three
fields raises at line 241 and is answered "Invalid request.". An identifier
the store does not resolve is answered "Request expired.". Otherwise the
handler answers "Starting download...", sends the notify message, creates
the scratch directory, runs the try-block, and unconditionally runs the
finally-block. -/
def cb_download (cfg : CbConfig) (st : CbState) (payload : Str) : CbState × List Effect :=
  match pySplit '|' 2 payload with
  | [_, uid, mode] =>
    match storeGet st.store uid with
    | none => (st, [.answerCb .expired])
    | some _ =>
      let st1 : CbState := ⟨st.store, cfg.tmpdir :: st.dirs, cfg.notifyId :: st.msgs⟩
      let body := cb_try cfg mode
      let fin := cb_finally cfg uid st1
      (fin.1, [Effect.answerCb .starting, Effect.notifyDownloading mode] ++ body ++ fin.2)
  | _ => (st, [.answerCb .invalid])

/-- Result of the link-classification dispatch of `handle_links`: no URL in
the text (line 157), a URL containing an Instagram domain fragment
(line 162), a URL containing a YouTube domain fragment (line 209), or a URL
matching neither (line 235). -/
inductive LinkClass where
  | noUrl
  | instagram (url : Str)
  | youtube (url : Str)
  | unsupported (url : Str)
deriving DecidableEq

/-- The substring test of bot.py line 162. -/
def isInstagramUrl (url : Str) : Bool :=
  hasFrag (("instagram.com").toList) url || hasFrag (("instagr.am").toList) url

/-- The substring test of bot.py line 209. -/
def isYoutubeUrl (url : Str) : Bool :=
  hasFrag (("youtube.com").toList) url || hasFrag (("youtu.be").toList) url

/-- The link-classification dispatch of `handle_links` (bot.py lines 154-157,
162, 209, 234-235), reified as a value: `extract_url` then the branch the
if-chain takes on the extracted URL. -/
def classify_link (text : Str) : LinkClass :=
  match extract_url text with
  | none => .noUrl
  | some url =>
    if isInstagramUrl url then .instagram url
    else if isYoutubeUrl url then .youtube url
    else .unsupported url

/-- Caption source for the Instagram branch (bot.py lines 166-168):
description, else title, else empty. -/
def igCaption (info : Option MediaInfo) : Str :=
  match info with
  | some i => pyFirstTruthy [i.description, i.title]
  | none => []

/-- Caption text of the Instagram card (bot.py lines 174-186): bold title
line when metadata is present, stripped and truncated snippet when the
caption is non-empty, space-joined hashtag line when any were found, and the
fixed fallback when everything is empty. -/
def igOutText (info : Option MediaInfo) : Str :=
  let caption := igCaption info
  let hashtags := hashtags_from_text caption
  let titlePart : Str :=
    match info with
    | some i => ("*").toList ++ pyFirstTruthy [i.title] ++ ("*\n").toList
    | none => []
  let snippetPart : Str :=
    if caption.isEmpty then []
    else ("\n").toList ++ truncSnippet (pyStrip caption) ++ ("\n").toList
  let tagPart : Str :=
    if hashtags.isEmpty then []
    else ("\n").toList ++ List.intercalate ((" ").toList) hashtags
  let out := titlePart ++ snippetPart ++ tagPart
  if out.isEmpty then ("Instagram post found.").toList else out

/-- Caption text of the YouTube card (bot.py lines 212-216): the title (the
placeholder "YouTube Video" when the probe returned nothing), a minutes line
when a non-zero duration is known, and the fixed chooser line. -/
def ytOutText (info : Option MediaInfo) : Str :=
  let title : Str :=
    match info with
    | some i => pyStrOfOpt i.title
    | none => ("YouTube Video").toList
  let mins : Str :=
    match info with
    | some i =>
      match i.duration with
      | some d =>
        if d = 0 then []
        else natStr (d / 60) ++ ("m").toList ++ natStr (d % 60) ++ ("s").toList
      | none => []
    | none => []
  ("*").toList ++ title ++ ("*\n").toList ++ mins ++ ("\n\nChoose download type:").toList

/-- Card delivery of `handle_links` (bot.py lines 196-203 and 223-229): with
a thumbnail the photo send is attempted, and when the transport rejects it
(`photoOk = false`) the except-clause falls back to a plain text send of the
same caption; without a thumbnail a plain text send is used. -/
def cardSend (thumb : Option Str) (photoOk : Bool) (out : Str) : List Effect :=
  match thumb with
  | some th => if photoOk then [.photoSend th out] else [.photoSend th out, .textSend out]
  | none => [.textSend out]

/-- Embeds `handle_links` (bot.py lines 154-235). `probeRes` is the outcome
of the engine metadata call the branch makes for the extracted URL, `uid` the
fresh identifier from `uuid.uuid4`, `fetchMsgId` the id of the transient
"Fetching ... info" message, `photoOk` whether the transport accepts the
thumbnail photo send. Returns the updated ledger and the emitted effects in
order. -/
def handle_links (probeRes : Except Str MediaInfo) (uid : Str) (fetchMsgId : Nat)
    (photoOk : Bool) (store : Store) (text : Str) : Store × List Effect :=
  match extract_url text with
  | none => (store, [.textSend (("Send a valid link.").toList)])
  | some url =>
    if isInstagramUrl url then
      let info := probe_info probeRes
      let thumb := match info with | some i => i.thumbnail | none => none
      let out := igOutText info
      let store' := storeSet store uid ⟨url, ("instagram").toList⟩
      (store',
        Effect.textSend (("🔎 Fetching Instagram info...").toList) ::
          cardSend thumb photoOk out ++ [Effect.deleteMsg fetchMsgId])
    else if isYoutubeUrl url then
      let info := probe_info probeRes
      let thumb := match info with | some i => i.thumbnail | none => none
      let out := ytOutText info
      let store' := storeSet store uid ⟨url, ("youtube").toList⟩
      (store',
        Effect.textSend (("🔎 Fetching YouTube info...").toList) ::
          cardSend thumb photoOk out ++ [Effect.deleteMsg fetchMsgId])
    else
      (store, [.textSend (("Unsupported link. Send Instagram or YouTube public link.").toList)])

/-! Shared concrete test data for witnesses and counterexamples. -/

/-- A concrete ledger identifier. -/
def uidW : Str := ("u1").toList

/-- A concrete ledger entry. -/
def entryW : ReqEntry := ⟨("https://youtu.be/a").toList, ("youtube").toList⟩

/-- A one-entry ledger. -/
def storeW : Store := [(uidW, entryW)]

/-- A concrete handler state holding `storeW`. -/
def stW : CbState := ⟨storeW, [], []⟩

/-- A concrete metadata dict with only a title. -/
def infoW : MediaInfo := ⟨some (("T").toList), none, none, none⟩

/-- A concrete well-formed callback payload requesting video mode. -/
def pW : Str := ("download|u1|video").toList

/-- A configuration whose download succeeds with a small mp4 artifact. -/
def cfgOk : CbConfig :=
  ⟨1900, fun _ => some 0, .ok (("/tmp/sm/a.mp4").toList, infoW), ("/tmp/sm").toList, 7⟩

/-- A configuration whose download produces a 2000 MB artifact. -/
def cfgBig : CbConfig :=
  ⟨1900, fun _ => some 2097152000, .ok (("/tmp/sm/a.mp4").toList, infoW),
   ("/tmp/sm").toList, 7⟩

/-- A configuration whose download produces a document-like artifact. -/
def cfgPdf : CbConfig :=
  ⟨1900, fun _ => some 5, .ok (("/tmp/sm/doc.pdf").toList, infoW), ("/tmp/sm").toList, 7⟩

/-- A configuration whose download produces a small mp3 artifact. -/
def cfgMp3 : CbConfig :=
  ⟨1900, fun _ => some 5, .ok (("/tmp/sm/song.mp3").toList, infoW), ("/tmp/sm").toList, 7⟩

/-- A configuration whose artifact's size cannot be read: the stat oracle
raises for every path. -/
def cfgGone : CbConfig :=
  ⟨1900, fun _ => none, .ok (("/tmp/sm/a.mp4").toList, infoW), ("/tmp/sm").toList, 7⟩

/-! Helper lemmas. -/

/-- Deleting a key makes it unresolvable. -/
theorem storeGet_storeDel (s : Store) (k : Str) : storeGet (storeDel s k) k = none := by
  induction s with
  | nil => rfl
  | cons p rest ih =>
    obtain ⟨k', v⟩ := p
    by_cases h : k' = k
    · simpa [storeDel, List.filter_cons, h] using ih
    · have hd : storeDel ((k', v) :: rest) k = (k', v) :: storeDel rest k := by
        simp [storeDel, List.filter_cons, h]
      rw [hd, storeGet, if_neg h]
      exact ih

/-- The dedup loop emits a sublist of its input. -/
theorem dedupTags_sublist (seen : List Str) (ts : List Str) :
    List.Sublist (dedupTags seen ts) ts := by
  induction ts generalizing seen with
  | nil => simp [dedupTags]
  | cons t ts ih =>
    by_cases h : lowerStr t ∈ seen
    · simpa [dedupTags, h] using (ih seen).cons t
    · simpa [dedupTags, h] using (ih (lowerStr t :: seen)).cons₂ t

/-- Nothing the dedup loop emits has a lowercased form already in `seen`. -/
theorem dedupTags_not_seen (seen : List Str) (ts : List Str) (x : Str)
    (hx : x ∈ dedupTags seen ts) : lowerStr x ∉ seen := by
  induction ts generalizing seen with
  | nil => simp [dedupTags] at hx
  | cons t ts ih =>
    by_cases h : lowerStr t ∈ seen
    · exact ih seen (by simpa [dedupTags, h] using hx)
    · rw [dedupTags, if_neg h] at hx
      rcases List.mem_cons.mp hx with rfl | hx'
      · exact h
      · intro hmem
        exact ih (lowerStr t :: seen) hx' (List.mem_cons_of_mem _ hmem)

/-- The dedup loop output has pairwise distinct lowercased forms. -/
theorem dedupTags_pairwise (seen : List Str) (ts : List Str) :
    (dedupTags seen ts).Pairwise (fun a b => lowerStr a ≠ lowerStr b) := by
  induction ts generalizing seen with
  | nil => simp [dedupTags]
  | cons t ts ih =>
    by_cases h : lowerStr t ∈ seen
    · simpa [dedupTags, h] using ih seen
    · rw [dedupTags, if_neg h]
      refine List.Pairwise.cons ?_ (ih (lowerStr t :: seen))
      intro b hb heq
      exact dedupTags_not_seen _ _ _ hb (heq ▸ List.mem_cons_self _ _)

/-- Every input tag's lowercased form is represented in the dedup output or
was already in `seen`. -/
theorem dedupTags_complete (seen : List Str) (ts : List Str) (t : Str)
    (ht : t ∈ ts) :
    lowerStr t ∈ seen ∨ ∃ u ∈ dedupTags seen ts, lowerStr u = lowerStr t := by
  induction ts generalizing seen with
  | nil => simp at ht
  | cons a ts ih =>
    rcases List.mem_cons.mp ht with rfl | ht'
    · by_cases h : lowerStr t ∈ seen
      · exact Or.inl h
      · exact Or.inr ⟨t, by rw [dedupTags, if_neg h]; exact List.mem_cons_self _ _, rfl⟩
    · by_cases h : lowerStr a ∈ seen
      · rw [dedupTags, if_pos h]
        exact ih seen ht'
      · rw [dedupTags, if_neg h]
        rcases ih (lowerStr a :: seen) ht' with hmem | ⟨u, hu, he⟩
        · rcases List.mem_cons.mp hmem with he' | hmem'
          · exact Or.inr ⟨a, List.mem_cons_self _ _, he'.symm⟩
          · exact Or.inl hmem'
        · exact Or.inr ⟨u, List.mem_cons_of_mem _ hu, he⟩

/-- Normal form of a `cb_download` run whose payload parses and whose
identifier resolves: the handler answers, notifies, runs the try-block and
the finally-block. -/
theorem cb_download_resolved (cfg : CbConfig) (st : CbState)
    (payload verb uid mode : Str) (req : ReqEntry)
    (hp : pySplit '|' 2 payload = [verb, uid, mode])
    (hg : storeGet st.store uid = some req) :
    cb_download cfg st payload =
      ((cb_finally cfg uid ⟨st.store, cfg.tmpdir :: st.dirs, cfg.notifyId :: st.msgs⟩).1,
       [Effect.answerCb .starting, Effect.notifyDownloading mode] ++ cb_try cfg mode ++
         (cb_finally cfg uid ⟨st.store, cfg.tmpdir :: st.dirs, cfg.notifyId :: st.msgs⟩).2) := by
  unfold cb_download
  rw [hp]
  simp only [hg]

/-- The code's dedup loop computes exactly the spec-side first-occurrence
dedup of the tags whose lowercased form is not yet in `seen`. -/
theorem dedupTags_eq_specFirstSeen (seen : List Str) (ts : List Str) :
    dedupTags seen ts = specFirstSeen (ts.filter (fun u => lowerStr u ∉ seen)) := by
  induction ts generalizing seen with
  | nil => simp [dedupTags, specFirstSeen]
  | cons a ts ih =>
    by_cases h : lowerStr a ∈ seen
    · rw [dedupTags, if_pos h, List.filter_cons, ih seen]
      simp [h]
    · have hf : ts.filter (fun u => lowerStr u ∉ (lowerStr a :: seen)) =
          (ts.filter (fun u => lowerStr u ∉ seen)).filter
            (fun u => lowerStr u ≠ lowerStr a) := by
        rw [List.filter_filter]
        apply List.filter_congr
        intro x hx
        by_cases h1 : lowerStr x = lowerStr a
        · simp [h1]
        · by_cases h2 : lowerStr x ∈ seen
          · simp [h1, h2]
          · simp [h1, h2]
      rw [dedupTags, if_neg h, List.filter_cons]
      have ha : (decide (lowerStr a ∉ seen)) = true := by simpa using h
      rw [ha, if_pos rfl, specFirstSeen, ih (lowerStr a :: seen), hf]

/-! Claim theorems. -/

/-- C6: a callback payload that does not split into three pipe-separated
fields makes `cb_download` answer the callback with the error notice and do
nothing else: the state (ledger, scratch directories, messages) is returned
unchanged and the only effect is the "Invalid request." answer — no ledger
mutation, no download, no send. -/
theorem cb_malformed_payload_spec (cfg : CbConfig) (st : CbState) (payload : Str)
    (h : (pySplit '|' 2 payload).length < 3) :
    cb_download cfg st payload = (st, [.answerCb .invalid]) := by
  unfold cb_download
  rcases hl : pySplit '|' 2 payload with _ | ⟨a, _ | ⟨b, _ | ⟨c, l⟩⟩⟩
  · rfl
  · rfl
  · rfl
  · rw [hl] at h
    rcases l with _ | ⟨d, l⟩
    · simp at h
    · simp at h
      omega

/-- Witness for C6: the truncated payload "download|x" has two fields and is
rejected without touching the concrete state. -/
theorem cb_malformed_payload_spec_witness :
    (pySplit '|' 2 (("download|x").toList)).length < 3 ∧
    cb_download ⟨1900, fun _ => some 0, .ok (("/tmp/sm/a.mp4").toList, infoW),
        ("/tmp/sm").toList, 7⟩ stW (("download|x").toList) =
      (stW, [.answerCb .invalid]) :=
  ⟨by decide,
   cb_malformed_payload_spec _ stW (("download|x").toList) (by decide)⟩

/-- C2: for every orchestrator invocation that resolves a ledger entry —
whatever the engine outcome (success, size rejection, or any exception) —
the final state has no scratch directory for the invocation, the ledger
identifier is no longer resolvable, and the transient notify message is
gone. The engine outcome and the size oracle are universally quantified, so
all three completion paths of the try-block are covered. -/
theorem cleanup_spec (cfg : CbConfig) (st : CbState) (payload verb uid mode : Str)
    (req : ReqEntry)
    (hp : pySplit '|' 2 payload = [verb, uid, mode])
    (hg : storeGet st.store uid = some req) :
    storeGet (cb_download cfg st payload).1.store uid = none ∧
    cfg.tmpdir ∉ (cb_download cfg st payload).1.dirs ∧
    cfg.notifyId ∉ (cb_download cfg st payload).1.msgs := by
  rw [cb_download_resolved cfg st payload verb uid mode req hp hg]
  refine ⟨?_, ?_, ?_⟩
  · simpa [cb_finally] using storeGet_storeDel st.store uid
  · simp [cb_finally, List.mem_filter]
  · simp [cb_finally, List.mem_filter]

/-- Witness for C2: a concrete resolved run leaves the identifier
unresolvable and neither the scratch directory nor the notify message
behind. -/
theorem cleanup_spec_witness :
    storeGet (cb_download cfgOk stW pW).1.store uidW = none ∧
    cfgOk.tmpdir ∉ (cb_download cfgOk stW pW).1.dirs ∧
    cfgOk.notifyId ∉ (cb_download cfgOk stW pW).1.msgs :=
  cleanup_spec cfgOk stW pW (("download").toList) uidW (("video").toList) entryW
    (by decide) (by decide)

/-- C3: when the artifact's byte size divided by 1024×1024 exceeds the
configured ceiling, the handler emits the size-exceeded report carrying the
measured megabyte count and performs no media send at all. The float
comparison and the reported `int` are modelled exactly, as in
`file_too_big`. -/
theorem size_gate_spec (cfg : CbConfig) (st : CbState) (payload verb uid mode : Str)
    (req : ReqEntry) (fp : Str) (info : MediaInfo) (size : Nat)
    (hp : pySplit '|' 2 payload = [verb, uid, mode])
    (hg : storeGet st.store uid = some req)
    (he : cfg.engine = .ok (fp, info))
    (hs : cfg.stat fp = some size)
    (hbig : cfg.maxMB * (1024 * 1024) < size) :
    Effect.tooLargeSend (size / (1024 * 1024)) ∈ (cb_download cfg st payload).2 ∧
    ∀ e ∈ (cb_download cfg st payload).2, isMediaSend e = false := by
  rw [cb_download_resolved cfg st payload verb uid mode req hp hg]
  have hb : file_too_big cfg.maxMB cfg.stat fp = true := by
    unfold file_too_big
    rw [hs]
    simpa using hbig
  have htry : cb_try cfg mode = [Effect.tooLargeSend (size / (1024 * 1024))] := by
    unfold cb_try
    rw [he]
    simp [hb, hs]
  constructor
  · simp [htry, cb_finally]
  · intro e he'
    simp only [htry, cb_finally, List.append_assoc, List.cons_append,
      List.nil_append] at he'
    fin_cases he' <;> rfl

/-- Witness for C3: a 2000 MB artifact against the default 1900 MB ceiling
is reported as too large. -/
theorem size_gate_spec_witness :
    Effect.tooLargeSend (2097152000 / (1024 * 1024)) ∈ (cb_download cfgBig stW pW).2 :=
  (size_gate_spec cfgBig stW pW (("download").toList) uidW (("video").toList)
    entryW (("/tmp/sm/a.mp4").toList) infoW 2097152000
    (by decide) (by decide) rfl rfl (by decide)).1

/-- C1 (counterexample): the claimed at-most-once consumption fails on the
code. The callback resolves the identifier with a plain dict `get`
(line 246) that removes nothing, so after a first callback has begun
consuming the identifier — its lookup completed, leaving the store exactly
as it was — a second lookup of the same identifier still resolves the entry
instead of observing NotFound. -/
theorem ledger_consume_counterexample :
    (cb_lookup storeW uidW).1 = some entryW ∧
    (cb_lookup (cb_lookup storeW uidW).2 uidW).1 = some entryW ∧
    (cb_lookup (cb_lookup storeW uidW).2 uidW).1 ≠ none := by
  decide

/-- C1 (amended): the callback lookup is non-destructive, so once one
consumption has begun, a second lookup of the same identifier before the
first invocation's cleanup still resolves the entry (overlapping downloads
are possible); only after the cleanup's deletion does a later lookup observe
NotFound. -/
theorem ledger_consume_amended (store : Store) (uid : Str) (req : ReqEntry)
    (hg : storeGet store uid = some req) :
    (cb_lookup store uid).1 = some req ∧
    (cb_lookup store uid).2 = store ∧
    (cb_lookup (cb_lookup store uid).2 uid).1 = some req ∧
    storeGet (storeDel store uid) uid = none :=
  ⟨hg, rfl, hg, storeGet_storeDel store uid⟩

/-- Witness for the amended C1 at the concrete one-entry ledger. -/
theorem ledger_consume_amended_witness :
    (cb_lookup storeW uidW).1 = some entryW ∧
    (cb_lookup storeW uidW).2 = storeW ∧
    (cb_lookup (cb_lookup storeW uidW).2 uidW).1 = some entryW ∧
    storeGet (storeDel storeW uidW) uidW = none :=
  ledger_consume_amended storeW uidW entryW (by decide)

/-- The degraded YouTube card text when the probe returned no metadata. -/
theorem ytOutText_none :
    ytOutText none = ("*YouTube Video*\n\n\nChoose download type:").toList := by
  decide

/-- C5: the metadata probe returns `none` for every raised engine exception
(it is a total function of the engine outcome, so nothing propagates), and
the YouTube message handler then proceeds with the degraded card: the
placeholder title "YouTube Video", no duration line, and a plain text send
because no thumbnail is available. -/
theorem probe_degraded_spec :
    (∀ e : Str, probe_info (.error e) = none) ∧
    ∀ (e text url uid : Str) (fid : Nat) (ok : Bool) (store : Store),
      extract_url text = some url →
      isInstagramUrl url = false →
      isYoutubeUrl url = true →
      handle_links (.error e) uid fid ok store text =
        (storeSet store uid ⟨url, ("youtube").toList⟩,
         [.textSend (("🔎 Fetching YouTube info...").toList),
          .textSend (("*YouTube Video*\n\n\nChoose download type:").toList),
          .deleteMsg fid]) := by
  refine ⟨fun e => rfl, ?_⟩
  intro e text url uid fid ok store hu hig hyt
  unfold handle_links
  rw [hu]
  simp [hig, hyt, probe_info, cardSend, ytOutText_none]

/-- Witness for C5: a raised 403 leads to the degraded card for a concrete
YouTube link. -/
theorem probe_degraded_spec_witness :
    handle_links (.error (("HTTP Error 403").toList)) uidW 3 true []
        (("check https://youtu.be/abc").toList) =
      (storeSet [] uidW ⟨("https://youtu.be/abc").toList, ("youtube").toList⟩,
       [.textSend (("🔎 Fetching YouTube info...").toList),
        .textSend (("*YouTube Video*\n\n\nChoose download type:").toList),
        .deleteMsg 3]) :=
  probe_degraded_spec.2 (("HTTP Error 403").toList)
    (("check https://youtu.be/abc").toList) (("https://youtu.be/abc").toList)
    uidW 3 true [] (by decide) (by decide) (by decide)

/-- C4: link classification is a deterministic three-way function of the
text: no URL yields `noUrl`; a first URL containing an Instagram or YouTube
domain fragment yields that URL with the platform tag (Instagram checked
first, as in the code); a first URL matching neither fragment set is
classified unsupported, and the handler then answers with the user-facing
rejection message and changes nothing else. -/
theorem link_classifier_spec (text : Str) :
    (extract_url text = none → classify_link text = .noUrl) ∧
    ∀ url : Str, extract_url text = some url →
      (isInstagramUrl url = true → classify_link text = .instagram url) ∧
      (isInstagramUrl url = false → isYoutubeUrl url = true →
        classify_link text = .youtube url) ∧
      (isInstagramUrl url = false → isYoutubeUrl url = false →
        classify_link text = .unsupported url ∧
        ∀ (pr : Except Str MediaInfo) (uid : Str) (fid : Nat) (ok : Bool) (store : Store),
          handle_links pr uid fid ok store text =
            (store,
             [.textSend (("Unsupported link. Send Instagram or YouTube public link.").toList)])) := by
  constructor
  · intro h
    unfold classify_link
    rw [h]
  · intro url hu
    refine ⟨?_, ?_, ?_⟩
    · intro hig
      unfold classify_link
      rw [hu]
      simp [hig]
    · intro hig hyt
      unfold classify_link
      rw [hu]
      simp [hig, hyt]
    · intro hig hyt
      constructor
      · unfold classify_link
        rw [hu]
        simp [hig, hyt]
      · intro pr uid fid ok store
        unfold handle_links
        rw [hu]
        simp [hig, hyt]

/-- Witness for C4: all three outcomes at concrete inputs, plus the
rejection message for the unsupported one. -/
theorem link_classifier_spec_witness :
    classify_link (("hello there").toList) = .noUrl ∧
    classify_link (("https://www.instagram.com/reel/x").toList) =
      .instagram (("https://www.instagram.com/reel/x").toList) ∧
    classify_link (("see https://youtu.be/abc").toList) =
      .youtube (("https://youtu.be/abc").toList) ∧
    classify_link (("https://example.com/x").toList) =
      .unsupported (("https://example.com/x").toList) ∧
    handle_links (.error []) uidW 3 true [] (("https://example.com/x").toList) =
      ([], [.textSend (("Unsupported link. Send Instagram or YouTube public link.").toList)]) :=
  ⟨(link_classifier_spec _).1 (by decide),
   ((link_classifier_spec _).2 (("https://www.instagram.com/reel/x").toList)
      (by decide)).1 (by decide),
   ((link_classifier_spec _).2 (("https://youtu.be/abc").toList)
      (by decide)).2.1 (by decide) (by decide),
   (((link_classifier_spec _).2 (("https://example.com/x").toList)
      (by decide)).2.2 (by decide) (by decide)).1,
   (((link_classifier_spec _).2 (("https://example.com/x").toList)
      (by decide)).2.2 (by decide) (by decide)).2 _ _ _ _ _⟩

/-- C7: hashtag extraction deduplicates case-insensitively, keeps the
first-seen casing, and preserves first-occurrence order: the spec's example
evaluates to exactly `["#Sun", "#Fun"]`; in general the output has pairwise
distinct lowercased forms, is a sublist of the matched tags, every matched
tag's lowercased form is represented, and — the defining property — the
output equals the spec-side `specFirstSeen` of the matched tags, which keeps
exactly the first occurrence of each case-insensitive class (hence with its
first-seen casing, in the order the classes first occur). -/
theorem hashtags_dedup_spec :
    hashtags_from_text (("Great day! #Sun #sun #Fun").toList) =
      [("#Sun").toList, ("#Fun").toList] ∧
    (∀ text : Str,
      (hashtags_from_text text).Pairwise (fun a b => lowerStr a ≠ lowerStr b)) ∧
    (∀ text : Str, List.Sublist (hashtags_from_text text) (findTags text)) ∧
    (∀ text : Str, ∀ t ∈ findTags text,
      ∃ u ∈ hashtags_from_text text, lowerStr u = lowerStr t) ∧
    (∀ text : Str, hashtags_from_text text = specFirstSeen (findTags text)) := by
  refine ⟨by decide, ?_, ?_, ?_, ?_⟩
  · intro text
    unfold hashtags_from_text
    by_cases h : text.isEmpty
    · simp [h]
    · simpa [h] using dedupTags_pairwise [] (findTags text)
  · intro text
    unfold hashtags_from_text
    by_cases h : text.isEmpty
    · simp [h]
    · simpa [h] using dedupTags_sublist [] (findTags text)
  · intro text t ht
    unfold hashtags_from_text
    have hne : ¬ text.isEmpty := by
      intro h
      rw [List.isEmpty_iff.mp h] at ht
      simp [findTags, findTagsAux] at ht
    rw [if_neg hne]
    rcases dedupTags_complete [] (findTags text) t ht with hmem | hex
    · simp at hmem
    · exact hex
  · intro text
    unfold hashtags_from_text
    by_cases h : text.isEmpty
    · rw [if_pos h, List.isEmpty_iff.mp h]
      simp [findTags, findTagsAux, specFirstSeen]
    · rw [if_neg h, dedupTags_eq_specFirstSeen]
      congr 1
      simp

/-- Witness for C7: the duplicate "#sun" of the example input is matched and
its lowercased form is represented in the deduplicated output. -/
theorem hashtags_dedup_spec_witness :
    ("#sun").toList ∈ findTags (("Great day! #Sun #sun #Fun").toList) ∧
    ∃ u ∈ hashtags_from_text (("Great day! #Sun #sun #Fun").toList),
      lowerStr u = lowerStr (("#sun").toList) :=
  ⟨by decide, hashtags_dedup_spec.2.2.2.1 _ _ (by decide)⟩

/-- C8: the caption snippet of over 800 characters is truncated to its first
800 characters followed by the ellipsis marker; a snippet of at most 800
characters passes through unmodified. -/
theorem desc_truncation_spec (s : Str) :
    (800 < s.length → truncSnippet s = s.take 800 ++ ("...").toList) ∧
    (s.length ≤ 800 → truncSnippet s = s) := by
  constructor
  · intro h
    rw [truncSnippet, if_pos h]
  · intro h
    rw [truncSnippet, if_neg (by omega)]

/-- The try-block never performs a document send: its delivery branches are
only the audio send and the video send. -/
theorem cb_try_no_documentSend (cfg : CbConfig) (mode : Str) (p c : Str) :
    Effect.documentSend p c ∉ cb_try cfg mode := by
  unfold cb_try
  rcases he : cfg.engine with e | ⟨fp, info⟩
  · simp [he]
  · simp only [he]
    split
    · split
      · simp
      · simp
    · split
      · simp
      · simp

/-- C9 (counterexample): the claimed three-way delivery fails on the code.
A document-like artifact (extension ".pdf") is delivered through the video
send, and no document send occurs anywhere in the run: the orchestrator has
no document delivery branch. -/
theorem delivery_kinds_counterexample :
    Effect.videoSend (("/tmp/sm/doc.pdf").toList) (("T").toList) ∈
      (cb_download cfgPdf stW pW).2 ∧
    (cb_download cfgPdf stW pW).2.all (fun e => !isDocumentSend e) = true := by
  decide

/-- C9 (amended): delivery selection is two-way. When audio-only mode was
requested or the lowercased extension is one of .mp3/.m4a/.opus/.ogg, the
artifact goes through the audio send; otherwise — including document-like
artifacts — it goes through the video send. The orchestrator never uses the
document send, on any input. -/
theorem delivery_kinds_amended :
    (∀ (cfg : CbConfig) (st : CbState) (payload p c : Str),
      Effect.documentSend p c ∉ (cb_download cfg st payload).2) ∧
    ∀ (cfg : CbConfig) (st : CbState) (payload verb uid mode : Str) (req : ReqEntry)
      (fp : Str) (info : MediaInfo) (size : Nat),
      pySplit '|' 2 payload = [verb, uid, mode] →
      storeGet st.store uid = some req →
      cfg.engine = .ok (fp, info) →
      cfg.stat fp = some size →
      ¬ (cfg.maxMB * (1024 * 1024) < size) →
      ((mode = ("audio").toList ∨ lowerStr (pathSuffix fp) ∈ audioExts) →
        Effect.audioSend fp ((info.title).getD (("File").toList)) ∈
          (cb_download cfg st payload).2) ∧
      ((mode ≠ ("audio").toList ∧ lowerStr (pathSuffix fp) ∉ audioExts) →
        Effect.videoSend fp ((info.title).getD (("File").toList)) ∈
          (cb_download cfg st payload).2) := by
  constructor
  · intro cfg st payload p c
    unfold cb_download
    rcases hl : pySplit '|' 2 payload with _ | ⟨a, _ | ⟨b, _ | ⟨c', l⟩⟩⟩
    · simp
    · simp
    · simp
    · rcases l with _ | ⟨d, l⟩
      · rcases hg : storeGet st.store b with _ | req
        · simp [hg]
        · simp [hg, cb_finally, cb_try_no_documentSend cfg c' p c]
      · simp
  · intro cfg st payload verb uid mode req fp info size hp hg he hs hsmall
    rw [cb_download_resolved cfg st payload verb uid mode req hp hg]
    have hb : file_too_big cfg.maxMB cfg.stat fp = false := by
      unfold file_too_big
      rw [hs]
      simpa using hsmall
    constructor
    · intro hcase
      have htry : cb_try cfg mode =
          [Effect.audioSend fp ((info.title).getD (("File").toList))] := by
        unfold cb_try
        rw [he]
        rcases hcase with hmode | hext
        · simp [hb, hmode]
        · simp [hb, hext]
      simp [htry]
    · intro hcase
      have htry : cb_try cfg mode =
          [Effect.videoSend fp ((info.title).getD (("File").toList))] := by
        unfold cb_try
        rw [he]
        simp [hb, hcase.2]
        exact hcase.1
      simp [htry]

/-- Witness for the amended C9: an audio-mode run over an mp3 artifact goes
through the audio send. -/
theorem delivery_kinds_amended_witness :
    Effect.audioSend (("/tmp/sm/song.mp3").toList) ((infoW.title).getD (("File").toList)) ∈
      (cb_download cfgMp3 stW (("download|u1|audio").toList)).2 :=
  (delivery_kinds_amended.2 cfgMp3 stW (("download|u1|audio").toList)
    (("download").toList) uidW (("audio").toList) entryW
    (("/tmp/sm/song.mp3").toList) infoW 5
    (by decide) (by decide) rfl rfl (by decide)).1 (Or.inl rfl)

/-- C10 (counterexample): the claim that a stat-failing artifact is reported
as a size-exceeded rejection fails on the code. The gate `file_too_big`
does return True, but composing the size-exceeded report re-reads the file
size, which raises again, so the run emits a download-failure message and
never a size-exceeded one. -/
theorem missing_artifact_counterexample :
    file_too_big 1900 cfgGone.stat (("/tmp/sm/a.mp4").toList) = true ∧
    Effect.failureSend (.statRaised (("/tmp/sm/a.mp4").toList)) ∈
      (cb_download cfgGone stW pW).2 ∧
    (cb_download cfgGone stW pW).2.all (fun e => !isTooLargeSend e) = true := by
  decide

/-- C10 (amended): when the artifact's size cannot be determined,
`file_too_big` returns True and the run enters the size-rejection branch,
but the size-exceeded report itself re-queries the size and raises, so the
user receives a download-failure message naming the stat failure; no
size-exceeded report and no media send occur. -/
theorem missing_artifact_amended (cfg : CbConfig) (st : CbState)
    (payload verb uid mode : Str) (req : ReqEntry) (fp : Str) (info : MediaInfo)
    (hp : pySplit '|' 2 payload = [verb, uid, mode])
    (hg : storeGet st.store uid = some req)
    (he : cfg.engine = .ok (fp, info))
    (hs : cfg.stat fp = none) :
    file_too_big cfg.maxMB cfg.stat fp = true ∧
    Effect.failureSend (.statRaised fp) ∈ (cb_download cfg st payload).2 ∧
    (∀ n : Nat, Effect.tooLargeSend n ∉ (cb_download cfg st payload).2) ∧
    ∀ e ∈ (cb_download cfg st payload).2, isMediaSend e = false := by
  have hb : file_too_big cfg.maxMB cfg.stat fp = true := by
    unfold file_too_big
    rw [hs]
  have htry : cb_try cfg mode = [Effect.failureSend (.statRaised fp)] := by
    unfold cb_try
    rw [he]
    simp [hb, hs]
  rw [cb_download_resolved cfg st payload verb uid mode req hp hg]
  refine ⟨hb, ?_, ?_, ?_⟩
  · simp [htry]
  · intro n
    simp [htry, cb_finally]
  · intro e he'
    simp only [htry, cb_finally, List.append_assoc, List.cons_append,
      List.nil_append] at he'
    fin_cases he' <;> rfl

/-- Witness for the amended C10: the concrete run with an unreadable
artifact reports the stat failure as a download failure. -/
theorem missing_artifact_amended_witness :
    file_too_big cfgGone.maxMB cfgGone.stat (("/tmp/sm/a.mp4").toList) = true ∧
    Effect.failureSend (.statRaised (("/tmp/sm/a.mp4").toList)) ∈
      (cb_download cfgGone stW pW).2 :=
  ⟨(missing_artifact_amended cfgGone stW pW (("download").toList) uidW
      (("video").toList) entryW (("/tmp/sm/a.mp4").toList) infoW
      (by decide) (by decide) rfl rfl).1,
   (missing_artifact_amended cfgGone stW pW (("download").toList) uidW
      (("video").toList) entryW (("/tmp/sm/a.mp4").toList) infoW
      (by decide) (by decide) rfl rfl).2.1⟩

/-- Witness for C8: a 900-character text is cut at 800 plus the marker, a
500-character text is unchanged. -/
theorem desc_truncation_spec_witness :
    800 < (List.replicate 900 'a').length ∧
    truncSnippet (List.replicate 900 'a') =
      (List.replicate 900 'a').take 800 ++ ("...").toList ∧
    (List.replicate 500 'a').length ≤ 800 ∧
    truncSnippet (List.replicate 500 'a') = List.replicate 500 'a' :=
  ⟨by simp only [List.length_replicate]; omega,
   (desc_truncation_spec _).1 (by simp only [List.length_replicate]; omega),
   by simp only [List.length_replicate]; omega,
   (desc_truncation_spec _).2 (by simp only [List.length_replicate]; omega)⟩

end SaveMedia
